import Mathlib

/-!
Shallow embedding of the jh71xx-hal I2C master transaction engine
(src/i2c.rs, src/i2c/registers.rs, src/i2c/peripheral.rs, src/macros.rs,
src/i2c/message.rs, src/i2c/constants.rs, src/i2c/mode.rs).

Register values are `Nat` holding `u32` contents; every `u32` cast or
wrap is explicit.  Hardware is modelled by environments that supply the
value of each register read, and every register access an operation
performs is recorded in a `RegAccess` trace in program order.
-/

namespace Jh71xxHal

/-- Register selector for the Designware I2C register file
(the get/set surface of the `I2cPeripheral` trait). -/
inductive Reg
  | con | tar | sar | txTl | rxTl
  | ssSclHcnt | ssSclLcnt | fsSclHcnt | fsSclLcnt | hsSclHcnt | hsSclLcnt
  | sdaHold
  | rawIntrStat | intrStat | intrMask | clrIntr
  | clrRxUnder | clrRxOver | clrTxOver | clrRdReq | clrTxAbrt
  | clrRxDone | clrActivity | clrStopDet | clrStartDet | clrGenCall
  | enable | enableStatus | txflr | rxflr | dataCmd | txAbrtSource
  deriving DecidableEq, Repr

/-- One register access: a read returning `v`, or a write of `v`. -/
inductive RegAccess
  | read (r : Reg) (v : Nat)
  | write (r : Reg) (v : Nat)
  deriving DecidableEq, Repr

/-- Register selected by an access. -/
def RegAccess.reg : RegAccess → Reg
  | .read r _ => r
  | .write r _ => r

/-- Bitflag test from src/macros.rs `bitflag_is_set`:
`self & oth != Self::NONE`. -/
def is_set (a b : Nat) : Bool := a &&& b != 0

/-- Complement of a bitflags value: the `bitflags` crate's `Not` keeps
only the type's defined bits, `(!bits) & all`, where `all` is the union
of the type's defined constants. -/
def flagNot (all x : Nat) : Nat := all ^^^ (x &&& all)

/-- Saturating `u32` addition (`u32::saturating_add`). -/
def satAdd32 (a b : Nat) : Nat := min (a + b) 4294967295

/-! Software status flags, src/i2c.rs lines 24-35.  The union of the
defined bits is `MASK`. -/
namespace Status
def NONE : Nat := 0b0000
def ACTIVE : Nat := 0b0001
def WRITE_IN_PROGRESS : Nat := 0b0010
def READ_IN_PROGRESS : Nat := 0b0100
def MASK : Nat := 0b0111
end Status

/-! `CON` register bits, src/i2c/registers.rs lines 50-67. -/
namespace I2cCon
def NONE : Nat := 0
def MASTER : Nat := 0b0000000000000001
def SPEED_STD : Nat := 0b0000000000000010
def SPEED_FAST : Nat := 0b0000000000000100
def SPEED_HIGH : Nat := 0b0000000000000110
def SLAVE_10BIT : Nat := 0b0000000000001000
def MASTER_10BIT : Nat := 0b0000000000010000
def RESTART_EN : Nat := 0b0000000000100000
def SLAVE_DISABLE : Nat := 0b0000000001000000
def STOP_DET_IFADDRESSED : Nat := 0b0000000010000000
def TX_EMPTY_CTRL : Nat := 0b0000000100000000
def RX_FIFO_FULL_HLD_CTRL : Nat := 0b0000001000000000
def BUS_CLEAR_CTRL : Nat := 0b0000100000000000
def MASK : Nat := 0b101111111111
/-- `From<u32>` generated by src/macros.rs `bitflag_from_u32`:
`Self(val & Self::MASK.bits())`. -/
def from_u32 (v : Nat) : Nat := v &&& MASK
end I2cCon

/-! Interrupt-status bit layout, shared by the `RAW_INTR_STAT`,
`INTR_STAT`, `INTR_MASK` and `CLR_INTR` bitfields,
src/i2c/registers.rs lines 93-220. -/
namespace I2cInterruptStatus
def RX_UNDER : Nat := 0b0000000000000001
def RX_OVER : Nat := 0b0000000000000010
def RX_FULL : Nat := 0b0000000000000100
def TX_OVER : Nat := 0b0000000000001000
def TX_EMPTY : Nat := 0b0000000000010000
def RD_REQ : Nat := 0b0000000000100000
def TX_ABRT : Nat := 0b0000000001000000
def RX_DONE : Nat := 0b0000000010000000
def ACTIVITY : Nat := 0b0000000100000000
def STOP_DET : Nat := 0b0000001000000000
def START_DET : Nat := 0b0000010000000000
def GEN_CALL : Nat := 0b0000100000000000
def RESTART_DET : Nat := 0b0001000000000000
def MST_ON_HOLD : Nat := 0b0010000000000000
def MASK : Nat := 0b0011111111111111
def from_u32 (v : Nat) : Nat := v &&& MASK
end I2cInterruptStatus

namespace I2cRawInterruptStatus
def MST_ON_HOLD : Nat := 0b0010000000000000
def MASK : Nat := 0b0011111111111111
def from_u32 (v : Nat) : Nat := v &&& MASK
end I2cRawInterruptStatus

/-! `INTR_MASK` register, src/i2c/registers.rs lines 151-191;
bit layout as `I2cInterruptStatus`, with the `master()` and
`Default::default()` constructors. -/
namespace I2cInterruptMask
def NONE : Nat := 0
def RX_FULL : Nat := 0b0000000000000100
def TX_EMPTY : Nat := 0b0000000000010000
def TX_ABRT : Nat := 0b0000000001000000
def STOP_DET : Nat := 0b0000001000000000
def MASK : Nat := 0b0011111111111111
def from_u32 (v : Nat) : Nat := v &&& MASK
/-- `Default for I2cInterruptMask`: `RX_FULL | TX_ABRT | STOP_DET`. -/
def default' : Nat := RX_FULL ||| TX_ABRT ||| STOP_DET
/-- `I2cInterruptMask::master()`: `Self::default() | Self::TX_EMPTY`. -/
def master : Nat := default' ||| TX_EMPTY
end I2cInterruptMask

namespace I2cClearInterrupt
def MASK : Nat := 0b0011111111111111
def from_u32 (v : Nat) : Nat := v &&& MASK
end I2cClearInterrupt

/-! `TAR` register, src/i2c/registers.rs lines 227-238. -/
namespace I2cTar
def ADDR_MASK_7BIT : Nat := 0b0000000001111111
def ADDR_MASK_10BIT : Nat := 0b0000001111111111
def MODE_10BIT : Nat := 0b0001000000000000
def MASK : Nat := 0b0001001111111111
def from_u32 (v : Nat) : Nat := v &&& MASK
end I2cTar

/-! `SAR` register, src/i2c/registers.rs lines 257-267. -/
namespace I2cSar
def MASK : Nat := 0b001111111111
def from_u32 (v : Nat) : Nat := v &&& MASK
end I2cSar

/-! `ENABLE` register, src/i2c/registers.rs lines 286-296. -/
namespace I2cEnable
def NONE : Nat := 0b0000
def ENABLE : Nat := 0b0001
def ABORT : Nat := 0b0010
def MASK : Nat := 0b0011
def from_u32 (v : Nat) : Nat := v &&& MASK
end I2cEnable

/-! `ENABLE_STATUS` register, src/i2c/registers.rs lines 303-316. -/
namespace I2cEnableStatus
def ACTIVITY : Nat := 0b00000001
def TFE : Nat := 0b00000100
def RFNE : Nat := 0b00001000
def MASTER_ACTIVITY : Nat := 0b00100000
def SLAVE_ACTIVITY : Nat := 0b01000000
def MASK : Nat := 0b01111101
def from_u32 (v : Nat) : Nat := v &&& MASK
end I2cEnableStatus

/-! `DATA_CMD` register, src/i2c/registers.rs lines 370-419. -/
namespace I2cDataCmd
def NONE : Nat := 0
def DATA_MASK : Nat := 0b0000000011111111
def READ : Nat := 0b0000000100000000
def STOP : Nat := 0b0000001000000000
def RESTART : Nat := 0b0000010000000000
def FIRST_DATA_BYTE : Nat := 0b0000100000000000
def MASK : Nat := 0b0000111111111111
def from_u32 (v : Nat) : Nat := v &&& MASK
end I2cDataCmd

/-! `TX_ABRT_SOURCE` register, src/i2c/registers.rs lines 426-445. -/
namespace I2cTxAbortSource
def NONE : Nat := 0
def MASK : Nat := 0b1111111010111111
def from_u32 (v : Nat) : Nat := v &&& MASK
end I2cTxAbortSource

/-! Message flags, src/i2c/message.rs (`I2cMsgFlag`, a `u16` bitflags). -/
namespace I2cMsgFlag
def NONE : Nat := 0x0000
def RECV_LEN : Nat := 0x0400
end I2cMsgFlag

/-- `I2C_SMBUS_BLOCK_MAX`, src/i2c/constants.rs line 7. -/
def I2C_SMBUS_BLOCK_MAX : Nat := 32

/-! `I2cFunc` union of the custom `Default`, src/i2c/registers.rs
lines 354-363: `I2C | SMBUS_BYTE | SMBUS_BYTE_DATA | SMBUS_WORD_DATA |
SMBUS_BLOCK_DATA | SMBUS_I2C_BLOCK`. -/
namespace I2cFunc
def ADDRESS_10BIT : Nat := 0x00000002
def default' : Nat :=
  0x00000001 ||| (0x00020000 ||| 0x00040000) ||| (0x00080000 ||| 0x00100000) |||
  (0x00200000 ||| 0x00400000) ||| (0x01000000 ||| 0x02000000) |||
  (0x04000000 ||| 0x08000000)
end I2cFunc

/-- Frequency modes, src/i2c/mode.rs (`I2cSpeedMode`, default `Standard`). -/
inductive I2cSpeedMode
  | Standard | Fast | FastPlus | Turbo | High | UltraFast
  deriving DecidableEq, Repr

/-- Operation mode, src/i2c/mode.rs (`I2cOpMode`, default `Master`). -/
inductive I2cOpMode
  | Master | Slave
  deriving DecidableEq, Repr

/-- Timing parameters, src/i2c/timings.rs (`I2cTimings`); the engine
only ever reads `bus_freq_hz`. -/
structure I2cTimings where
  bus_freq_hz : I2cSpeedMode
  scl_rise_ns : Nat
  scl_fall_ns : Nat
  scl_int_delay_ns : Nat
  sda_fall_ns : Nat
  sda_hold_ns : Nat
  digital_filter_width_ns : Nat
  analog_filter_cutoff_freq_hz : Nat
  deriving DecidableEq, Repr

/-- `I2cTimings::default()`: derived, all-zero with `bus_freq_hz`
defaulting to `Standard`. -/
def I2cTimings.default' : I2cTimings :=
  ⟨I2cSpeedMode.Standard, 0, 0, 0, 0, 0, 0, 0⟩

/-- Error type, src/i2c/error.rs (`NoAcknowledge` drops its
`NoAcknowledgeSource` payload, which this engine never constructs). -/
inductive Error
  | Bus
  | ArbitrationLoss
  | NoAcknowledge
  | Overrun
  | Other
  deriving DecidableEq, Repr

/-- Engine bookkeeping state: the fields of `struct I2c` other than the
owned peripheral handle `i2c`, src/i2c.rs lines 40-63. -/
structure I2cState where
  status : Nat
  rx_fifo_depth : Nat
  tx_fifo_depth : Nat
  tx_buf_len : Nat
  rx_buf_len : Nat
  tx_outstanding : Nat
  rx_outstanding : Nat
  tx_flag : Nat
  rx_flag : Nat
  master_cfg : Nat
  functionality : Nat
  ss_hcnt : Nat
  ss_lcnt : Nat
  fs_hcnt : Nat
  fs_lcnt : Nat
  hs_hcnt : Nat
  hs_lcnt : Nat
  sda_hold_time : Nat
  timings : I2cTimings
  mode : I2cOpMode
  msg_err : Int
  deriving DecidableEq, Repr

namespace I2c

/-- `I2c::new`, src/i2c.rs lines 75-100: every counter zero, every flag
and bitfield at its `Default`. -/
def new : I2cState where
  status := Status.NONE
  rx_fifo_depth := 0
  tx_fifo_depth := 0
  tx_buf_len := 0
  rx_buf_len := 0
  tx_outstanding := 0
  rx_outstanding := 0
  tx_flag := I2cMsgFlag.NONE
  rx_flag := I2cMsgFlag.NONE
  master_cfg := I2cCon.NONE
  functionality := I2cFunc.default'
  ss_hcnt := 0
  ss_lcnt := 0
  fs_hcnt := 0
  fs_lcnt := 0
  hs_hcnt := 0
  hs_lcnt := 0
  sda_hold_time := 0
  timings := I2cTimings.default'
  mode := I2cOpMode.Master
  msg_err := 0

/-- `I2c::configure_master`, src/i2c.rs lines 130-143. -/
def configure_master (st : I2cState) : I2cState :=
  let cfg0 := I2cCon.MASTER ||| I2cCon.SLAVE_DISABLE ||| I2cCon.RESTART_EN
  let speed :=
    match st.timings.bus_freq_hz with
    | I2cSpeedMode.Standard => I2cCon.SPEED_STD
    | I2cSpeedMode.High => I2cCon.SPEED_HIGH
    | _ => I2cCon.SPEED_FAST
  { st with
    functionality := I2cFunc.ADDRESS_10BIT ||| I2cFunc.default'
    master_cfg := cfg0 ||| speed
    mode := I2cOpMode.Master }

/-- `I2c::configure_fifo_master`, src/i2c.rs lines 118-127: threshold
and control-register writes only; no engine field is assigned. -/
def configure_fifo_master (st : I2cState) : I2cState × List RegAccess :=
  (st,
   [RegAccess.write Reg.txTl (st.tx_fifo_depth / 2),
    RegAccess.write Reg.rxTl 0,
    RegAccess.write Reg.con st.master_cfg])

end I2c

/-- `I2cPeripheral::read_clear_interrupt`, src/i2c/peripheral.rs lines
82-138.  `istat` is the raw `INTR_STAT` register value, `src` the raw
`TX_ABRT_SOURCE` value; the result is the pair the method returns
(masked status, captured abort source) together with the trace of the
register reads it performs, in program order. -/
def read_clear_interrupt (istat src : Nat) : (Nat × Nat) × List RegAccess :=
  let stat := I2cInterruptStatus.from_u32 istat
  ((stat,
    if is_set stat I2cInterruptStatus.TX_ABRT then I2cTxAbortSource.from_u32 src
    else I2cTxAbortSource.NONE),
   RegAccess.read Reg.intrStat istat ::
   ((if is_set stat I2cInterruptStatus.RX_UNDER then [RegAccess.read Reg.clrRxUnder 0] else []) ++
    (if is_set stat I2cInterruptStatus.RX_OVER then [RegAccess.read Reg.clrRxOver 0] else []) ++
    (if is_set stat I2cInterruptStatus.TX_OVER then [RegAccess.read Reg.clrTxOver 0] else []) ++
    (if is_set stat I2cInterruptStatus.RD_REQ then [RegAccess.read Reg.clrRdReq 0] else []) ++
    (if is_set stat I2cInterruptStatus.TX_ABRT then
      [RegAccess.read Reg.txAbrtSource src, RegAccess.read Reg.clrTxAbrt 0] else []) ++
    (if is_set stat I2cInterruptStatus.RX_DONE then [RegAccess.read Reg.clrRxDone 0] else []) ++
    (if is_set stat I2cInterruptStatus.ACTIVITY then [RegAccess.read Reg.clrActivity 0] else []) ++
    (if is_set stat I2cInterruptStatus.STOP_DET then [RegAccess.read Reg.clrStopDet 0] else []) ++
    (if is_set stat I2cInterruptStatus.START_DET then [RegAccess.read Reg.clrStartDet 0] else []) ++
    (if is_set stat I2cInterruptStatus.GEN_CALL then [RegAccess.read Reg.clrGenCall 0] else [])))

/-- Loop body of `I2c::read_poll_timeout`, src/i2c.rs lines 145-169:
`while !success && time <= timeout { success = poll(); if success
break; delay(sleep_us); time = time.saturating_add(sleep_us) }`.
`poll k` gives the k-th poll attempt's outcome and register trace.
The fuel argument only bounds the recursion; with `sleep_us >= 1` a
fuel of `timeout + 2` is never exhausted (at both call sites
`sleep_us = 10`). -/
def read_poll_go (poll : Nat → Bool × List RegAccess) (sleep_us timeout : Nat) :
    Nat → Nat → Nat → Bool × List RegAccess
  | _, _, 0 => (false, [])
  | k, time, fuel + 1 =>
    if time ≤ timeout then
      let r := poll k
      if r.1 then (true, r.2)
      else
        let rest := read_poll_go poll sleep_us timeout (k + 1) (satAdd32 time sleep_us) fuel
        (rest.1, r.2 ++ rest.2)
    else (false, [])

/-- `I2c::read_poll_timeout`: `true` when the poll succeeded within the
budget (`Ok(())`), `false` for the `Err(Error::Other)` timeout. -/
def read_poll_timeout (poll : Nat → Bool × List RegAccess) (sleep_us timeout : Nat) :
    Bool × List RegAccess :=
  read_poll_go poll sleep_us timeout 0 0 (timeout + 2)

/-- Hardware responses consumed by `I2c::__disable`. -/
structure DisableEnv where
  raw_intr_stat : Nat
  enable : Nat
  abort_poll : Nat → Nat
  activity : Nat → Nat

/-- Retry loop of `I2c::__disable`, src/i2c.rs lines 193-210:
`for _ in (0..timeout).rev() { __disable_nowait(); if
get_enable_status().is_set(ACTIVITY) { return; } delay(25) }`.
`act k` is the raw `ENABLE_STATUS` value of the k-th read; the loop
returns early exactly when the (masked) `ACTIVITY` bit tests set. -/
def disableLoop (act : Nat → Nat) (k : Nat) : Nat → List RegAccess
  | 0 => []
  | iters + 1 =>
    let t := [RegAccess.write Reg.enable I2cEnable.NONE,
              RegAccess.read Reg.enableStatus (act k)]
    if is_set (I2cEnableStatus.from_u32 (act k)) I2cEnableStatus.ACTIVITY then t
    else t ++ disableLoop act (k + 1) iters

/-- `I2c::__disable`, src/i2c.rs lines 175-213.  No engine field is
assigned; the result is the register trace. -/
def disable' (env : DisableEnv) : List RegAccess :=
  let raw := I2cRawInterruptStatus.from_u32 env.raw_intr_stat
  let en := I2cEnable.from_u32 env.enable
  let t0 : List RegAccess :=
    [RegAccess.read Reg.rawIntrStat env.raw_intr_stat,
     RegAccess.read Reg.enable env.enable]
  let abort_needed :=
    is_set raw I2cRawInterruptStatus.MST_ON_HOLD && !(is_set en I2cEnable.ABORT)
  if abort_needed then
    let tA : List RegAccess := [RegAccess.write Reg.enable I2cEnable.ABORT]
    let p := read_poll_timeout
      (fun k => (is_set (I2cEnable.from_u32 (env.abort_poll k)) I2cEnable.ABORT,
                 [RegAccess.read Reg.enable (env.abort_poll k)])) 10 100
    if p.1 then t0 ++ tA ++ p.2 ++ disableLoop env.activity 0 100
    else t0 ++ tA ++ p.2
  else t0 ++ disableLoop env.activity 0 100

namespace I2c

/-- `I2c::init_master`, src/i2c.rs lines 224-249: disable, program the
timing registers, then `configure_fifo_master`.  No engine field is
assigned. -/
def init_master (st : I2cState) (denv : DisableEnv) : I2cState × List RegAccess :=
  let t0 := disable' denv
  let t1 : List RegAccess :=
    [RegAccess.write Reg.ssSclHcnt st.ss_hcnt,
     RegAccess.write Reg.ssSclLcnt st.ss_lcnt,
     RegAccess.write Reg.fsSclHcnt st.fs_hcnt,
     RegAccess.write Reg.fsSclLcnt st.fs_lcnt]
  let t2 : List RegAccess :=
    if st.hs_hcnt ≠ 0 ∧ st.hs_lcnt ≠ 0 then
      [RegAccess.write Reg.hsSclHcnt st.hs_hcnt,
       RegAccess.write Reg.hsSclLcnt st.hs_lcnt]
    else []
  let t3 : List RegAccess :=
    if st.sda_hold_time ≠ 0 then [RegAccess.write Reg.sdaHold st.sda_hold_time] else []
  let f := configure_fifo_master st
  (f.1, t0 ++ t1 ++ t2 ++ t3 ++ f.2)

end I2c

/-- Hardware responses consumed by `I2c::xfer_init`. -/
structure XferEnv where
  denv : DisableEnv
  enable_status : Nat
  clear_interrupt : Nat

namespace I2c

/-- `I2c::xfer_init`, src/i2c.rs lines 252-281.  No engine field is
assigned; the result is the register trace. -/
def xfer_init (st : I2cState) (env : XferEnv) (tar : Nat) : I2cState × List RegAccess :=
  let con := if is_set tar I2cTar.MODE_10BIT then I2cCon.MASTER_10BIT else I2cCon.NONE
  (st,
   disable' env.denv ++
   [RegAccess.write Reg.con con,
    RegAccess.write Reg.tar tar,
    RegAccess.write Reg.intrMask I2cInterruptMask.NONE,
    RegAccess.write Reg.enable I2cEnable.ENABLE,
    RegAccess.read Reg.enableStatus env.enable_status,
    RegAccess.read Reg.clrIntr env.clear_interrupt,
    RegAccess.write Reg.intrMask I2cInterruptMask.master])

end I2c

/-! Hardware responses consumed by `I2c::write_msg`: the single
`get_txflr` read. -/
structure WriteEnv where
  txflr : Nat
  deriving DecidableEq, Repr

deriving instance DecidableEq for Except

/-- Result of `I2c::write_msg`: the updated engine state, the values
written to `DATA_CMD` in order, the value written to `INTR_MASK`, and
the returned `Result<()>`. -/
structure WriteOut where
  st : I2cState
  cmds : List Nat
  intr_mask : Nat
  res : Except Error Unit
  deriving DecidableEq, Repr

/-- Byte loop of `I2c::write_msg`, src/i2c.rs lines 291-310, applied to
`buf[..len]`: each data byte becomes one `DATA_CMD` value.  `STOP` is
OR'd in when `last_msg && i == len.saturating_sub(1)` and the
`RECV_LEN` flag is off; `RESTART` is OR'd in when `need_restart`, which
the source then clears, so the recursive call always passes `false`.
`I2cDataCmd::from(data_byte)` takes a `u8`, hence the `% 256`. -/
def txCmds (last_msg recv_len : Bool) : Bool → Nat → Nat → List Nat → List Nat
  | _, _, _, [] => []
  | need_restart, len, i, b :: rest =>
    let cmd0 := if last_msg && (i == len - 1) && !recv_len then
      I2cDataCmd.NONE ||| I2cDataCmd.STOP else I2cDataCmd.NONE
    let cmd1 := if need_restart then cmd0 ||| I2cDataCmd.RESTART else cmd0
    (cmd1 ||| b % 256) :: txCmds last_msg recv_len false len (i + 1) rest

namespace I2c

/-- `I2c::write_msg`, src/i2c.rs lines 284-331.  `buf` is the caller's
byte buffer (entries are `u8` values). -/
def write_msg (st : I2cState) (env : WriteEnv) (buf : List Nat) (last_msg : Bool) :
    WriteOut :=
  let need_restart :=
    !(is_set st.status Status.WRITE_IN_PROGRESS) && is_set st.master_cfg I2cCon.RESTART_EN
  let tx_limit := st.tx_fifo_depth - env.txflr
  let len := min buf.length tx_limit
  let cmds := txCmds last_msg (is_set st.tx_flag I2cMsgFlag.RECV_LEN) need_restart len 0
    (buf.take len)
  let st1 :=
    if len > tx_limit ∨ is_set st.tx_flag I2cMsgFlag.RECV_LEN then
      { st with
        status := st.status ||| Status.WRITE_IN_PROGRESS
        tx_outstanding := satAdd32 st.tx_outstanding 1
        tx_buf_len := len - tx_limit }
    else
      { st with status := st.status &&& flagNot Status.MASK Status.WRITE_IN_PROGRESS }
  let intr_mask :=
    if st.msg_err ≠ 0 then I2cInterruptMask.NONE
    else if last_msg then
      I2cInterruptMask.master &&& flagNot I2cInterruptMask.MASK I2cInterruptMask.TX_EMPTY
    else I2cInterruptMask.master
  ⟨st1, cmds, intr_mask, Except.ok ()⟩

end I2c

/-- Hardware responses consumed by `I2c::read_msg`: `polls k` is the
raw (`INTR_STAT`, `TX_ABRT_SOURCE`) pair behind the k-th
`read_clear_interrupt` poll, `rxflr` the `RXFLR` occupancy read, and
`data j` the raw `DATA_CMD` value of the j-th FIFO pop. -/
structure ReadEnv where
  polls : Nat → Nat × Nat
  rxflr : Nat
  data : Nat → Nat

/-- Result of `I2c::read_msg`: the updated engine state, the bytes
stored into the caller's buffer, the full register trace, and the
returned `Result<()>`. -/
structure ReadOut where
  st : I2cState
  buf : List Nat
  trace : List RegAccess
  res : Except Error Unit
  deriving DecidableEq, Repr

namespace I2c

/-- `I2c::read_msg`, src/i2c.rs lines 340-402, for a caller buffer of
length `n`. -/
def read_msg (st : I2cState) (env : ReadEnv) (n : Nat) : ReadOut :=
  if st.rx_outstanding ≥ st.rx_fifo_depth then
    ⟨st, [], [], Except.error Error.Overrun⟩
  else
    let cmd :=
      if is_set st.master_cfg I2cCon.RESTART_EN then I2cDataCmd.READ ||| I2cDataCmd.RESTART
      else I2cDataCmd.READ
    let t0 : List RegAccess := [RegAccess.write Reg.dataCmd cmd]
    let p := read_poll_timeout
      (fun k =>
        let r := read_clear_interrupt (env.polls k).1 (env.polls k).2
        (is_set r.1.1 I2cInterruptStatus.RX_FULL, r.2)) 10 100
    if p.1 then
      let rx_valid := env.rxflr
      let len := min n rx_valid
      let drained := (List.range len).map (fun j =>
        let tmp := I2cDataCmd.from_u32 (env.data j) &&& I2cDataCmd.DATA_MASK
        if is_set st.rx_flag I2cMsgFlag.RECV_LEN then
          if tmp = 0 ∨ tmp > I2C_SMBUS_BLOCK_MAX then 1 else tmp
        else tmp)
      let tD := (List.range len).map (fun j => RegAccess.read Reg.dataCmd (env.data j))
      let st1 :=
        if rx_valid > len then
          { st with
            status := st.status &&& Status.READ_IN_PROGRESS
            rx_buf_len := rx_valid - len }
        else
          { st with
            status := st.status &&& flagNot Status.MASK Status.READ_IN_PROGRESS
            rx_buf_len := 0 }
      ⟨st1, drained, t0 ++ p.2 ++ [RegAccess.read Reg.rxflr env.rxflr] ++ tD, Except.ok ()⟩
    else
      ⟨st, [], t0 ++ p.2, Except.error Error.Other⟩

end I2c

/-! Transaction dispatch, src/i2c.rs lines 409-455. -/

/-- One `embedded_hal::i2c::Operation`: a read into a buffer of length
`n`, or a write of `buf`. -/
inductive Op
  | read (n : Nat)
  | write (buf : List Nat)
  deriving DecidableEq, Repr

/-- Whether an operation is a write (the `matches!(o, Operation::Write(_))`
filter). -/
def Op.isWrite : Op → Bool
  | .read _ => false
  | .write _ => true

/-- Number of write operations in a list (the `filter(...).count()` of
both `transaction` impls). -/
def countWrites (ops : List Op) : Nat := (ops.filter Op.isWrite).length

/-- One engine invocation made by the dispatch loop. -/
inductive Call
  | readCall (n : Nat)
  | writeCall (buf : List Nat) (last : Bool)
  deriving DecidableEq, Repr

/-- Hardware responses for one operation of a transaction. -/
structure OpEnv where
  renv : ReadEnv
  wenv : WriteEnv

/-- Default hardware responses, used when a transaction's environment
list is shorter than its operation list. -/
def OpEnv.default' : OpEnv :=
  ⟨⟨fun _ => (0, 0), 0, fun _ => 0⟩, ⟨0⟩⟩

/-- Result of a transaction entry point: final engine state, the
engine invocations in order, each invocation's `Result<()>`, and the
transaction's own result. -/
structure TxnOut where
  st : I2cState
  calls : List Call
  results : List (Except Error Unit)
  res : Except Error Unit

/-- Dispatch loop shared by both `transaction` impls, src/i2c.rs lines
419-427 and 443-451: walk the operations in order; a read invokes
`read_msg`, a write decrements the remaining-write counter `writes`
(`saturating_sub`) and invokes `write_msg` with `last_msg = (writes ==
0)`; the `?` operator stops at the first error. -/
def transactionGo : I2cState → List OpEnv → Nat → List Op → TxnOut
  | st, _, _, [] => ⟨st, [], [], Except.ok ()⟩
  | st, envs, writes, Op.read n :: rest =>
    let r := I2c.read_msg st (envs.headD OpEnv.default').renv n
    match r.res with
    | Except.error e => ⟨r.st, [Call.readCall n], [Except.error e], Except.error e⟩
    | Except.ok _ =>
      let t := transactionGo r.st envs.tail writes rest
      ⟨t.st, Call.readCall n :: t.calls, Except.ok () :: t.results, t.res⟩
  | st, envs, writes, Op.write buf :: rest =>
    let writes1 := writes - 1
    let w := I2c.write_msg st (envs.headD OpEnv.default').wenv buf (writes1 == 0)
    match w.res with
    | Except.error e =>
      ⟨w.st, [Call.writeCall buf (writes1 == 0)], [Except.error e], Except.error e⟩
    | Except.ok _ =>
      let t := transactionGo w.st envs.tail writes1 rest
      ⟨t.st, Call.writeCall buf (writes1 == 0) :: t.calls, Except.ok () :: t.results, t.res⟩

/-- `I2cHal<SevenBitAddress>::transaction`, src/i2c.rs lines 410-430:
`tar = I2cTar::from(address as u32)` for a `u8` address, `xfer_init`,
then the dispatch loop with `writes` initialised to the number of write
operations. -/
def transaction7 (st : I2cState) (address : Nat) (xenv : XferEnv) (envs : List OpEnv)
    (ops : List Op) : TxnOut :=
  let tar := I2cTar.from_u32 (address % 256)
  let x := I2c.xfer_init st xenv tar
  transactionGo x.1 envs (countWrites ops) ops

/-- `I2cHal<TenBitAddress>::transaction`, src/i2c.rs lines 434-454:
as the 7-bit entry point but with a `u16` address and
`tar = I2cTar::from(address as u32) | I2cTar::MODE_10BIT`. -/
def transaction10 (st : I2cState) (address : Nat) (xenv : XferEnv) (envs : List OpEnv)
    (ops : List Op) : TxnOut :=
  let tar := I2cTar.from_u32 (address % 65536) ||| I2cTar.MODE_10BIT
  let x := I2c.xfer_init st xenv tar
  transactionGo x.1 envs (countWrites ops) ops

/-- Engine states reachable from `I2c::new` through the operations of
the `I2c` module (each hardware-response environment arbitrary). -/
inductive Reachable : I2cState → Prop
  | new : Reachable I2c.new
  | configure_master (st : I2cState) : Reachable st → Reachable (I2c.configure_master st)
  | configure_fifo_master (st : I2cState) :
      Reachable st → Reachable (I2c.configure_fifo_master st).1
  | init_master (st : I2cState) (denv : DisableEnv) :
      Reachable st → Reachable (I2c.init_master st denv).1
  | xfer_init (st : I2cState) (xenv : XferEnv) (tar : Nat) :
      Reachable st → Reachable (I2c.xfer_init st xenv tar).1
  | write_msg (st : I2cState) (env : WriteEnv) (buf : List Nat) (last_msg : Bool) :
      Reachable st → Reachable (I2c.write_msg st env buf last_msg).st
  | read_msg (st : I2cState) (env : ReadEnv) (n : Nat) :
      Reachable st → Reachable (I2c.read_msg st env n).st
  | transaction7 (st : I2cState) (address : Nat) (xenv : XferEnv) (envs : List OpEnv)
      (ops : List Op) : Reachable st → Reachable (transaction7 st address xenv envs ops).st
  | transaction10 (st : I2cState) (address : Nat) (xenv : XferEnv) (envs : List OpEnv)
      (ops : List Op) : Reachable st → Reachable (transaction10 st address xenv envs ops).st

/-- Expected invocation sequence of the transaction dispatch, stated in
the spec's words (section 4.2, Transaction dispatch): reads and writes
in list order, a write carrying `is_last_message` true exactly when it
is the last write operation of the list, i.e. when no write operation
follows it (reads may). -/
def specCalls : List Op → List Call
  | [] => []
  | Op.read n :: rest => Call.readCall n :: specCalls rest
  | Op.write buf :: rest =>
    Call.writeCall buf (rest.all (fun o => !o.isWrite)) :: specCalls rest

/-- Claim C4 as stated: a data-command write emitted by `write_msg`
carries `STOP` iff `is_last_message` is true, the byte is the last byte
of the supplied buffer, and the `RECV_LEN` flag is not set. -/
def stopIffLastBufferByte (st : I2cState) (env : WriteEnv) (buf : List Nat)
    (last_msg : Bool) : Prop :=
  ∀ j, j < (I2c.write_msg st env buf last_msg).cmds.length →
    is_set ((I2c.write_msg st env buf last_msg).cmds.getD j 0) I2cDataCmd.STOP
      = (last_msg && (j == buf.length - 1) && !(is_set st.tx_flag I2cMsgFlag.RECV_LEN))

/-! Helper lemmas. -/

theorem countP_ite_nil {α : Type} (c : Prop) [Decidable c] (l : List α) (p : α → Bool) :
    (if c then l else []).countP p = if c then l.countP p else 0 := by
  split <;> simp

/-- `write_msg` returns `Ok(())` on every path of its body. -/
theorem write_msg_res (st : I2cState) (env : WriteEnv) (buf : List Nat) (last_msg : Bool) :
    (I2c.write_msg st env buf last_msg).res = Except.ok () := rfl

/-- `write_msg` never assigns the FIFO depth fields. -/
theorem write_msg_fifo (st : I2cState) (env : WriteEnv) (buf : List Nat) (last_msg : Bool) :
    (I2c.write_msg st env buf last_msg).st.rx_fifo_depth = st.rx_fifo_depth
    ∧ (I2c.write_msg st env buf last_msg).st.tx_fifo_depth = st.tx_fifo_depth := by
  unfold I2c.write_msg
  dsimp only
  split <;> simp

/-- `read_msg` never assigns the FIFO depth fields. -/
theorem read_msg_fifo (st : I2cState) (env : ReadEnv) (n : Nat) :
    (I2c.read_msg st env n).st.rx_fifo_depth = st.rx_fifo_depth
    ∧ (I2c.read_msg st env n).st.tx_fifo_depth = st.tx_fifo_depth := by
  unfold I2c.read_msg
  dsimp only
  split
  · simp
  · split
    · split <;> simp
    · simp

theorem txCmds_length (last_msg recv_len : Bool) :
    ∀ (bytes : List Nat) (nr : Bool) (len i : Nat),
      (txCmds last_msg recv_len nr len i bytes).length = bytes.length := by
  intro bytes
  induction bytes with
  | nil => intro nr len i; rfl
  | cons b rest ih => intro nr len i; simp [txCmds, ih]

set_option maxRecDepth 8192 in
theorem txCmds_getD_stop (last_msg recv_len : Bool) :
    ∀ (bytes : List Nat) (nr : Bool) (len i j : Nat), j < bytes.length →
      is_set ((txCmds last_msg recv_len nr len i bytes).getD j 0) I2cDataCmd.STOP
        = (last_msg && (i + j == len - 1) && !recv_len) := by
  intro bytes
  induction bytes with
  | nil => intro nr len i j hj; exact absurd hj (by simp)
  | cons b rest ih =>
    intro nr len i j hj
    have hb : b % 256 < 256 := Nat.mod_lt _ (by decide)
    cases j with
    | zero =>
      have h1 : ∀ m, m < 256 →
          is_set ((I2cDataCmd.NONE ||| I2cDataCmd.STOP) ||| m) I2cDataCmd.STOP = true := by
        decide
      have h2 : ∀ m, m < 256 →
          is_set (((I2cDataCmd.NONE ||| I2cDataCmd.STOP) ||| I2cDataCmd.RESTART) ||| m)
            I2cDataCmd.STOP = true := by
        decide
      have h3 : ∀ m, m < 256 →
          is_set (I2cDataCmd.NONE ||| m) I2cDataCmd.STOP = false := by
        decide
      have h4 : ∀ m, m < 256 →
          is_set ((I2cDataCmd.NONE ||| I2cDataCmd.RESTART) ||| m) I2cDataCmd.STOP = false := by
        decide
      simp only [txCmds, List.getD_cons_zero, Nat.add_zero]
      cases hc : (last_msg && (i == len - 1) && !recv_len) <;> cases nr <;>
        simp only [if_pos, if_neg, Bool.false_eq_true, not_false_eq_true, if_true, if_false] <;>
        first
          | exact h1 (b % 256) hb
          | exact h2 (b % 256) hb
          | exact h3 (b % 256) hb
          | exact h4 (b % 256) hb
    | succ j =>
      have e : i + (j + 1) = (i + 1) + j := by omega
      simp only [txCmds, List.getD_cons_succ, e]
      exact ih false len (i + 1) j (by simpa using Nat.lt_of_succ_lt_succ hj)

theorem countWrites_read (n : Nat) (rest : List Op) :
    countWrites (Op.read n :: rest) = countWrites rest := by
  simp [countWrites, Op.isWrite]

theorem countWrites_write (buf : List Nat) (rest : List Op) :
    countWrites (Op.write buf :: rest) = countWrites rest + 1 := by
  simp [countWrites, Op.isWrite]

/-- The dispatch counter reaches zero exactly when no write operation
remains in the rest of the list. -/
theorem countWrites_eq_zero (ops : List Op) :
    (countWrites ops == 0) = ops.all (fun o => !o.isWrite) := by
  induction ops with
  | nil => rfl
  | cons o rest ih =>
    cases o with
    | read n => simpa [countWrites_read, Op.isWrite] using ih
    | write buf => simp [countWrites_write, Op.isWrite]

/-- Behaviour of the dispatch loop when started with the write count of
its own operation list: the invocations made are an in-order prefix of
the spec's expected sequence; on success they are exactly that
sequence, every invocation returning `Ok`; on failure every invocation
but the last returned `Ok` and the last one is a `read_msg` invocation
returning the error the loop returns. -/
theorem transactionGo_spec (ops : List Op) :
    ∀ (st : I2cState) (envs : List OpEnv),
      ((transactionGo st envs (countWrites ops) ops).calls <+: specCalls ops)
      ∧ ((transactionGo st envs (countWrites ops) ops).res = Except.ok () →
          (transactionGo st envs (countWrites ops) ops).calls = specCalls ops
          ∧ ∀ r ∈ (transactionGo st envs (countWrites ops) ops).results, r = Except.ok ())
      ∧ (∀ e, (transactionGo st envs (countWrites ops) ops).res = Except.error e →
          (transactionGo st envs (countWrites ops) ops).results.getLast?
              = some (Except.error e)
          ∧ ∃ n, (transactionGo st envs (countWrites ops) ops).calls.getLast?
              = some (Call.readCall n))
      ∧ (∀ r ∈ (transactionGo st envs (countWrites ops) ops).results.dropLast,
          r = Except.ok ()) := by
  induction ops with
  | nil =>
    intro st envs
    refine ⟨List.nil_prefix, fun _ => ⟨rfl, by simp [transactionGo]⟩, fun e he => ?_,
      by simp [transactionGo]⟩
    simp [transactionGo] at he
  | cons op rest ih =>
    intro st envs
    cases op with
    | read n =>
      rw [countWrites_read]
      simp only [transactionGo]
      split
      next e hres =>
        refine ⟨?_, fun hok => Except.noConfusion hok, fun e' he' => ?_, ?_⟩
        · exact List.cons_prefix_cons.mpr ⟨rfl, List.nil_prefix⟩
        · cases he'
          exact ⟨rfl, n, rfl⟩
        · intro r hr
          simp at hr
      next u hres =>
        cases u
        obtain ⟨ih1, ih2, ih3, ih4⟩ :=
          ih (I2c.read_msg st (envs.headD OpEnv.default').renv n).st envs.tail
        generalize ht : transactionGo (I2c.read_msg st (envs.headD OpEnv.default').renv n).st
          envs.tail (countWrites rest) rest = t at ih1 ih2 ih3 ih4 ⊢
        refine ⟨?_, fun hok => ?_, fun e he => ?_, ?_⟩
        · exact List.cons_prefix_cons.mpr ⟨rfl, ih1⟩
        · obtain ⟨hc, hr⟩ := ih2 hok
          refine ⟨congrArg (List.cons (Call.readCall n)) hc, fun r hr' => ?_⟩
          rcases List.mem_cons.mp hr' with h | h
          · exact h
          · exact hr r h
        · obtain ⟨hl, n', hn'⟩ := ih3 e he
          exact ⟨Option.mem_def.mp (List.mem_getLast?_cons (Option.mem_def.mpr hl)),
            n', Option.mem_def.mp (List.mem_getLast?_cons (Option.mem_def.mpr hn'))⟩
        · intro r hr
          dsimp only at hr
          rcases hres' : t.results with _ | ⟨b, l⟩
          · rw [hres'] at hr
            simp at hr
          · rw [hres', List.dropLast_cons₂] at hr
            rcases List.mem_cons.mp hr with h | h
            · exact h
            · exact ih4 r (by rw [hres']; exact h)
    | write buf =>
      rw [countWrites_write]
      simp only [transactionGo, Nat.add_sub_cancel, write_msg_res]
      obtain ⟨ih1, ih2, ih3, ih4⟩ :=
        ih (I2c.write_msg st (envs.headD OpEnv.default').wenv buf
          (countWrites rest == 0)).st envs.tail
      generalize ht : transactionGo (I2c.write_msg st (envs.headD OpEnv.default').wenv buf
        (countWrites rest == 0)).st envs.tail (countWrites rest) rest = t at ih1 ih2 ih3 ih4 ⊢
      have hflag : specCalls (Op.write buf :: rest)
          = Call.writeCall buf (countWrites rest == 0) :: specCalls rest := by
        rw [countWrites_eq_zero]; rfl
      refine ⟨?_, fun hok => ?_, fun e he => ?_, ?_⟩
      · rw [hflag]
        exact List.cons_prefix_cons.mpr ⟨rfl, ih1⟩
      · obtain ⟨hc, hr⟩ := ih2 hok
        refine ⟨by rw [hflag]; exact congrArg _ hc, fun r hr' => ?_⟩
        rcases List.mem_cons.mp hr' with h | h
        · exact h
        · exact hr r h
      · obtain ⟨hl, n', hn'⟩ := ih3 e he
        exact ⟨Option.mem_def.mp (List.mem_getLast?_cons (Option.mem_def.mpr hl)),
          n', Option.mem_def.mp (List.mem_getLast?_cons (Option.mem_def.mpr hn'))⟩
      · intro r hr
        rcases hres' : t.results with _ | ⟨b, l⟩
        · rw [hres'] at hr
          simp at hr
        · rw [hres', List.dropLast_cons₂] at hr
          rcases List.mem_cons.mp hr with h | h
          · exact h
          · exact ih4 r (by rw [hres']; exact h)

/-- The dispatch loop never assigns the FIFO depth fields. -/
theorem transactionGo_fifo (ops : List Op) :
    ∀ (st : I2cState) (envs : List OpEnv) (writes : Nat),
      (transactionGo st envs writes ops).st.rx_fifo_depth = st.rx_fifo_depth
      ∧ (transactionGo st envs writes ops).st.tx_fifo_depth = st.tx_fifo_depth := by
  induction ops with
  | nil => intro st envs writes; exact ⟨rfl, rfl⟩
  | cons op rest ih =>
    intro st envs writes
    cases op with
    | read n =>
      simp only [transactionGo]
      cases hres : (I2c.read_msg st (envs.headD OpEnv.default').renv n).res with
      | error e =>
        exact read_msg_fifo st (envs.headD OpEnv.default').renv n
      | ok u =>
        cases u
        obtain ⟨f1, f2⟩ := read_msg_fifo st (envs.headD OpEnv.default').renv n
        obtain ⟨g1, g2⟩ :=
          ih (I2c.read_msg st (envs.headD OpEnv.default').renv n).st envs.tail writes
        exact ⟨g1.trans f1, g2.trans f2⟩
    | write buf =>
      simp only [transactionGo, write_msg_res]
      obtain ⟨f1, f2⟩ :=
        write_msg_fifo st (envs.headD OpEnv.default').wenv buf ((writes - 1) == 0)
      obtain ⟨g1, g2⟩ :=
        ih (I2c.write_msg st (envs.headD OpEnv.default').wenv buf ((writes - 1) == 0)).st
          envs.tail (writes - 1)
      exact ⟨g1.trans f1, g2.trans f2⟩

/-- No operation of the `I2c` module ever assigns a FIFO depth field,
so both stay at the 0 that `I2c::new` stored. -/
theorem reachable_fifo_depths (st : I2cState) (h : Reachable st) :
    st.rx_fifo_depth = 0 ∧ st.tx_fifo_depth = 0 := by
  induction h with
  | new => exact ⟨rfl, rfl⟩
  | configure_master st h ih => simpa [I2c.configure_master] using ih
  | configure_fifo_master st h ih => simpa [I2c.configure_fifo_master] using ih
  | init_master st denv h ih => simpa [I2c.init_master, I2c.configure_fifo_master] using ih
  | xfer_init st xenv tar h ih => simpa [I2c.xfer_init] using ih
  | write_msg st env buf last_msg h ih =>
    obtain ⟨f1, f2⟩ := write_msg_fifo st env buf last_msg
    exact ⟨f1.trans ih.1, f2.trans ih.2⟩
  | read_msg st env n h ih =>
    obtain ⟨f1, f2⟩ := read_msg_fifo st env n
    exact ⟨f1.trans ih.1, f2.trans ih.2⟩
  | transaction7 st address xenv envs ops h ih =>
    obtain ⟨g1, g2⟩ := transactionGo_fifo ops st envs (countWrites ops)
    exact ⟨g1.trans ih.1, g2.trans ih.2⟩
  | transaction10 st address xenv envs ops h ih =>
    obtain ⟨g1, g2⟩ := transactionGo_fifo ops st envs (countWrites ops)
    exact ⟨g1.trans ih.1, g2.trans ih.2⟩

/-! Claim theorems. -/

/-- C1: `I2c::new` stores 0 in both FIFO depth fields, no operation of
the module ever assigns them, so they are 0 in every reachable state;
consequently `read_msg` in every reachable state fails the software
overrun check (`rx_outstanding >= rx_fifo_depth` with both sides 0) and
returns `Err(Overrun)` without touching a single register. -/
theorem c1_fifo_depths_zero_read_overrun (st : I2cState) (h : Reachable st) :
    st.rx_fifo_depth = 0 ∧ st.tx_fifo_depth = 0
    ∧ ∀ (env : ReadEnv) (n : Nat),
        I2c.read_msg st env n = ⟨st, [], [], Except.error Error.Overrun⟩ := by
  obtain ⟨h1, h2⟩ := reachable_fifo_depths st h
  refine ⟨h1, h2, fun env n => ?_⟩
  have hge : st.rx_outstanding ≥ st.rx_fifo_depth := by
    rw [h1]; exact Nat.zero_le _
  unfold I2c.read_msg
  rw [if_pos hge]

/-- Witness for C1 at the initial state `I2c::new` itself. -/
theorem c1_fifo_depths_zero_witness :
    I2c.new.rx_fifo_depth = 0 ∧ I2c.new.tx_fifo_depth = 0
    ∧ ∀ (env : ReadEnv) (n : Nat),
        I2c.read_msg I2c.new env n = ⟨I2c.new, [], [], Except.error Error.Overrun⟩ :=
  c1_fifo_depths_zero_read_overrun I2c.new Reachable.new

/-- C6: both transaction entry points walk the operation list in order,
invoking `read_msg` for each `Read` and `write_msg` for each `Write`,
with `is_last_message` true exactly on the last `Write` of the list
(reads interleaved after it do not matter); the first error aborts the
walk — every earlier invocation returned `Ok` — and is returned. -/
theorem c6_transaction_dispatch_order (st : I2cState) (address : Nat) (xenv : XferEnv)
    (envs : List OpEnv) (ops : List Op) :
    (((transaction7 st address xenv envs ops).calls <+: specCalls ops)
      ∧ ((transaction7 st address xenv envs ops).res = Except.ok () →
          (transaction7 st address xenv envs ops).calls = specCalls ops)
      ∧ (∀ e, (transaction7 st address xenv envs ops).res = Except.error e →
          (transaction7 st address xenv envs ops).results.getLast? = some (Except.error e)
          ∧ ∃ n, (transaction7 st address xenv envs ops).calls.getLast?
              = some (Call.readCall n))
      ∧ (∀ r ∈ (transaction7 st address xenv envs ops).results.dropLast, r = Except.ok ()))
    ∧ (((transaction10 st address xenv envs ops).calls <+: specCalls ops)
      ∧ ((transaction10 st address xenv envs ops).res = Except.ok () →
          (transaction10 st address xenv envs ops).calls = specCalls ops)
      ∧ (∀ e, (transaction10 st address xenv envs ops).res = Except.error e →
          (transaction10 st address xenv envs ops).results.getLast? = some (Except.error e)
          ∧ ∃ n, (transaction10 st address xenv envs ops).calls.getLast?
              = some (Call.readCall n))
      ∧ (∀ r ∈ (transaction10 st address xenv envs ops).results.dropLast,
          r = Except.ok ())) := by
  obtain ⟨h1, h2, h3, h4⟩ := transactionGo_spec ops st envs
  exact ⟨⟨h1, fun hok => (h2 hok).1, h3, h4⟩, ⟨h1, fun hok => (h2 hok).1, h3, h4⟩⟩

/-- C10: `write_msg` returns `Ok(())` for every buffer, flag and state
(its body has no error branch), so an error from either transaction
entry point can only have been produced by a `read_msg` invocation —
whenever a transaction fails, its last engine invocation was a read. -/
theorem c10_write_msg_infallible (st : I2cState) (wenv : WriteEnv) (buf : List Nat)
    (last_msg : Bool) (address : Nat) (xenv : XferEnv) (envs : List OpEnv) (ops : List Op) :
    (I2c.write_msg st wenv buf last_msg).res = Except.ok ()
    ∧ (∀ e, (transaction7 st address xenv envs ops).res = Except.error e →
        ∃ n, (transaction7 st address xenv envs ops).calls.getLast? = some (Call.readCall n))
    ∧ (∀ e, (transaction10 st address xenv envs ops).res = Except.error e →
        ∃ n, (transaction10 st address xenv envs ops).calls.getLast?
          = some (Call.readCall n)) := by
  obtain ⟨_, _, h3, _⟩ := transactionGo_spec ops st envs
  exact ⟨rfl, fun e he => (h3 e he).2, fun e he => (h3 e he).2⟩

/-- C8: `read_clear_interrupt` reads the masked status register
`INTR_STAT` exactly once; it never touches the aggregate `CLR_INTR`
register; each of the ten interrupt bits with a dedicated clear
register has that register read exactly when the bit is asserted in the
masked status (`TX_ABRT_SOURCE` is likewise read exactly when the abort
bit is asserted); when the abort bit is asserted the abort-source read
immediately precedes the `CLR_TX_ABRT` read and the captured source is
returned; and the returned pair is the masked status with abort source
`NONE` when the abort bit was clear. -/
theorem c8_read_clear_interrupt_protocol (istat src : Nat) :
    (read_clear_interrupt istat src).1.1 = istat &&& 16383
    ∧ (read_clear_interrupt istat src).2.countP (fun a => a.reg == Reg.intrStat) = 1
    ∧ (read_clear_interrupt istat src).2.countP (fun a => a.reg == Reg.clrIntr) = 0
    ∧ ((read_clear_interrupt istat src).2.countP (fun a => a.reg == Reg.clrRxUnder)
        = if is_set (istat &&& 16383) I2cInterruptStatus.RX_UNDER then 1 else 0)
    ∧ ((read_clear_interrupt istat src).2.countP (fun a => a.reg == Reg.clrRxOver)
        = if is_set (istat &&& 16383) I2cInterruptStatus.RX_OVER then 1 else 0)
    ∧ ((read_clear_interrupt istat src).2.countP (fun a => a.reg == Reg.clrTxOver)
        = if is_set (istat &&& 16383) I2cInterruptStatus.TX_OVER then 1 else 0)
    ∧ ((read_clear_interrupt istat src).2.countP (fun a => a.reg == Reg.clrRdReq)
        = if is_set (istat &&& 16383) I2cInterruptStatus.RD_REQ then 1 else 0)
    ∧ ((read_clear_interrupt istat src).2.countP (fun a => a.reg == Reg.clrTxAbrt)
        = if is_set (istat &&& 16383) I2cInterruptStatus.TX_ABRT then 1 else 0)
    ∧ ((read_clear_interrupt istat src).2.countP (fun a => a.reg == Reg.txAbrtSource)
        = if is_set (istat &&& 16383) I2cInterruptStatus.TX_ABRT then 1 else 0)
    ∧ ((read_clear_interrupt istat src).2.countP (fun a => a.reg == Reg.clrRxDone)
        = if is_set (istat &&& 16383) I2cInterruptStatus.RX_DONE then 1 else 0)
    ∧ ((read_clear_interrupt istat src).2.countP (fun a => a.reg == Reg.clrActivity)
        = if is_set (istat &&& 16383) I2cInterruptStatus.ACTIVITY then 1 else 0)
    ∧ ((read_clear_interrupt istat src).2.countP (fun a => a.reg == Reg.clrStopDet)
        = if is_set (istat &&& 16383) I2cInterruptStatus.STOP_DET then 1 else 0)
    ∧ ((read_clear_interrupt istat src).2.countP (fun a => a.reg == Reg.clrStartDet)
        = if is_set (istat &&& 16383) I2cInterruptStatus.START_DET then 1 else 0)
    ∧ ((read_clear_interrupt istat src).2.countP (fun a => a.reg == Reg.clrGenCall)
        = if is_set (istat &&& 16383) I2cInterruptStatus.GEN_CALL then 1 else 0)
    ∧ (is_set (istat &&& 16383) I2cInterruptStatus.TX_ABRT = true →
        (read_clear_interrupt istat src).1.2 = src &&& 65215
        ∧ [RegAccess.read Reg.txAbrtSource src, RegAccess.read Reg.clrTxAbrt 0]
            <:+: (read_clear_interrupt istat src).2)
    ∧ (is_set (istat &&& 16383) I2cInterruptStatus.TX_ABRT = false →
        (read_clear_interrupt istat src).1.2 = I2cTxAbortSource.NONE) := by
  refine ⟨rfl, ?_, ?_, ?_, ?_, ?_, ?_, ?_, ?_, ?_, ?_, ?_, ?_, ?_,
    fun habrt => ⟨?_, ?_⟩, fun habrt => ?_⟩
  case refine_14 =>
    simp [read_clear_interrupt, habrt, I2cTxAbortSource.from_u32, I2cTxAbortSource.MASK,
      I2cInterruptStatus.from_u32, I2cInterruptStatus.MASK]
  case refine_15 =>
    have h5 := List.infix_append
      ((if is_set (I2cInterruptStatus.from_u32 istat) I2cInterruptStatus.RX_UNDER then
          [RegAccess.read Reg.clrRxUnder 0] else []) ++
       ((if is_set (I2cInterruptStatus.from_u32 istat) I2cInterruptStatus.RX_OVER then
          [RegAccess.read Reg.clrRxOver 0] else []) ++
        ((if is_set (I2cInterruptStatus.from_u32 istat) I2cInterruptStatus.TX_OVER then
          [RegAccess.read Reg.clrTxOver 0] else []) ++
         (if is_set (I2cInterruptStatus.from_u32 istat) I2cInterruptStatus.RD_REQ then
          [RegAccess.read Reg.clrRdReq 0] else []))))
      [RegAccess.read Reg.txAbrtSource src, RegAccess.read Reg.clrTxAbrt 0]
      ((if is_set (I2cInterruptStatus.from_u32 istat) I2cInterruptStatus.RX_DONE then
          [RegAccess.read Reg.clrRxDone 0] else []) ++
       ((if is_set (I2cInterruptStatus.from_u32 istat) I2cInterruptStatus.ACTIVITY then
          [RegAccess.read Reg.clrActivity 0] else []) ++
        ((if is_set (I2cInterruptStatus.from_u32 istat) I2cInterruptStatus.STOP_DET then
          [RegAccess.read Reg.clrStopDet 0] else []) ++
         ((if is_set (I2cInterruptStatus.from_u32 istat) I2cInterruptStatus.START_DET then
          [RegAccess.read Reg.clrStartDet 0] else []) ++
          (if is_set (I2cInterruptStatus.from_u32 istat) I2cInterruptStatus.GEN_CALL then
          [RegAccess.read Reg.clrGenCall 0] else [])))))
    have habrt' : is_set (I2cInterruptStatus.from_u32 istat) I2cInterruptStatus.TX_ABRT
        = true := by
      simpa [I2cInterruptStatus.from_u32, I2cInterruptStatus.MASK] using habrt
    simp only [read_clear_interrupt, habrt', if_true]
    refine List.infix_cons ?_
    simpa [List.append_assoc] using h5
  case refine_16 =>
    simp [read_clear_interrupt, habrt, I2cInterruptStatus.from_u32, I2cInterruptStatus.MASK]
  all_goals
    simp [read_clear_interrupt, countP_ite_nil, List.countP_append, List.countP_cons,
      RegAccess.reg, I2cInterruptStatus.from_u32, I2cInterruptStatus.MASK]

/-- C7: whenever the outstanding receive count is at least the receive
FIFO depth at entry, `read_msg` returns `Err(Overrun)` with an empty
register trace (zero reads, zero writes), an untouched caller buffer,
and the engine state unchanged in every field. -/
theorem c7_read_msg_overrun_no_access (st : I2cState) (env : ReadEnv) (n : Nat)
    (h : st.rx_outstanding ≥ st.rx_fifo_depth) :
    I2c.read_msg st env n = ⟨st, [], [], Except.error Error.Overrun⟩ := by
  unfold I2c.read_msg
  rw [if_pos h]

/-- Witness for C7 at a concrete input: the freshly constructed engine
(both counters zero) with a 3-byte read request. -/
theorem c7_read_msg_overrun_witness :
    I2c.read_msg I2c.new ⟨fun _ => (0, 0), 0, fun _ => 0⟩ 3
      = ⟨I2c.new, [], [], Except.error Error.Overrun⟩ :=
  c7_read_msg_overrun_no_access I2c.new ⟨fun _ => (0, 0), 0, fun _ => 0⟩ 3 (Nat.le_refl 0)

/-- C2 (code bug evidence): with `tx_fifo_depth = 1`, `TXFLR = 0`
(headroom `H = 1`) and a buffer of length `L = 2`, `write_msg` leaves
`WRITE_IN_PROGRESS` clear, `tx_outstanding` at 0 and `tx_buf_len` at 0,
because its guard compares `len = min(L, H)` against `H` instead of `L`
(src/i2c.rs line 312) and its remainder is `len - H = 0` instead of
`L - H` (line 315); the spec requires `WRITE_IN_PROGRESS` set, the
outstanding count incremented and `tx_buf_len = L - H = 1`. -/
theorem c2_write_msg_dead_overflow_branch :
    (I2c.write_msg { I2c.new with tx_fifo_depth := 1 } ⟨0⟩ [0xAA, 0xBB] false).cmds.length = 1
    ∧ (I2c.write_msg { I2c.new with tx_fifo_depth := 1 } ⟨0⟩ [0xAA, 0xBB] false).st.tx_buf_len = 0
    ∧ (I2c.write_msg { I2c.new with tx_fifo_depth := 1 } ⟨0⟩
        [0xAA, 0xBB] false).st.tx_outstanding = 0
    ∧ is_set (I2c.write_msg { I2c.new with tx_fifo_depth := 1 } ⟨0⟩
        [0xAA, 0xBB] false).st.status Status.WRITE_IN_PROGRESS = false := by
  decide

/-- C3 (code bug evidence): a `read_msg` call that returns `Ok` after
draining 1 of 2 available bytes ends with `rx_buf_len = 1` as the spec
says, but `READ_IN_PROGRESS` is not set — `status &= READ_IN_PROGRESS`
(src/i2c.rs line 394) narrows the status to that single bit instead of
OR-ing it in, so starting from `status = ACTIVE` the whole status
collapses to 0. -/
theorem c3_read_msg_in_progress_not_set :
    (I2c.read_msg { I2c.new with rx_fifo_depth := 1, status := Status.ACTIVE }
        ⟨fun _ => (I2cInterruptStatus.RX_FULL, 0), 2, fun _ => 0x42⟩ 1).res = Except.ok ()
    ∧ (I2c.read_msg { I2c.new with rx_fifo_depth := 1, status := Status.ACTIVE }
        ⟨fun _ => (I2cInterruptStatus.RX_FULL, 0), 2, fun _ => 0x42⟩ 1).st.rx_buf_len = 1
    ∧ is_set (I2c.read_msg { I2c.new with rx_fifo_depth := 1, status := Status.ACTIVE }
        ⟨fun _ => (I2cInterruptStatus.RX_FULL, 0), 2, fun _ => 0x42⟩ 1).st.status
        Status.READ_IN_PROGRESS = false
    ∧ (I2c.read_msg { I2c.new with rx_fifo_depth := 1, status := Status.ACTIVE }
        ⟨fun _ => (I2cInterruptStatus.RX_FULL, 0), 2, fun _ => 0x42⟩ 1).st.status
        = Status.NONE := by
  decide

set_option maxRecDepth 8192 in
/-- C5 (code bug evidence): the disable retry loop keeps writing
`enable = NONE` for all 100 iterations when the `ACTIVITY` flag reads
clear (controller already inactive) on every check, and returns after
the very first iteration when `ACTIVITY` reads set (controller still
active) — the exact inverse of the claimed exit condition. -/
theorem c5_disable_loop_inverted_exit :
    (disableLoop (fun _ => 0) 0 100).count (RegAccess.write Reg.enable I2cEnable.NONE) = 100
    ∧ disableLoop (fun _ => 1) 0 100
      = [RegAccess.write Reg.enable I2cEnable.NONE, RegAccess.read Reg.enableStatus 1] := by
  decide

/-- C4 counterexample: with `tx_fifo_depth = 1` (headroom 1), buffer
`[0xAA, 0xBB]` and `is_last_message = true`, the single emitted
data-command write (value `0x2AA`, byte index 0) carries `STOP`
although index 0 is not the last byte of the supplied buffer, so the
claimed "last byte of the buffer" stop condition is false. -/
theorem c4_stop_bit_counterexample :
    stopIffLastBufferByte { I2c.new with tx_fifo_depth := 1 } ⟨0⟩ [0xAA, 0xBB] true = False :=
  eq_false (fun h => absurd (h 0 (by decide)) (by decide))

/-- C4 as amended: a data-command write emitted by `write_msg` carries
`STOP` iff `is_last_message` is true, the byte is the last byte sent in
this call — index `min(L, H) - 1`, where `H` is the transmit headroom —
and the `RECV_LEN` flag is not set.  When `L <= H` this is the last
byte of the buffer; when `L > H` the stop bit lands on the last byte
that fits. -/
theorem c4_stop_bit_last_byte_of_call (st : I2cState) (env : WriteEnv) (buf : List Nat)
    (last_msg : Bool) (j : Nat) (h : j < (I2c.write_msg st env buf last_msg).cmds.length) :
    is_set ((I2c.write_msg st env buf last_msg).cmds.getD j 0) I2cDataCmd.STOP
      = (last_msg && (j == min buf.length (st.tx_fifo_depth - env.txflr) - 1)
          && !(is_set st.tx_flag I2cMsgFlag.RECV_LEN)) := by
  have hlen : (buf.take (min buf.length (st.tx_fifo_depth - env.txflr))).length
      = min buf.length (st.tx_fifo_depth - env.txflr) := by
    simp [List.length_take, Nat.min_eq_left (Nat.min_le_left _ _)]
  have hj : j < (buf.take (min buf.length (st.tx_fifo_depth - env.txflr))).length := by
    simpa [I2c.write_msg, txCmds_length, hlen] using h
  have := txCmds_getD_stop last_msg (is_set st.tx_flag I2cMsgFlag.RECV_LEN)
    (buf.take (min buf.length (st.tx_fifo_depth - env.txflr)))
    (!(is_set st.status Status.WRITE_IN_PROGRESS) && is_set st.master_cfg I2cCon.RESTART_EN)
    (min buf.length (st.tx_fifo_depth - env.txflr)) 0 j hj
  simpa [I2c.write_msg] using this

/-- Witness for C4 as amended: buffer `[0xAA, 0xBB]` fits a headroom of
4, and the write at index 1 = min(2, 4) - 1 carries `STOP`. -/
theorem c4_stop_bit_witness :
    is_set ((I2c.write_msg { I2c.new with tx_fifo_depth := 4 } ⟨0⟩ [0xAA, 0xBB] true).cmds.getD 1 0)
      I2cDataCmd.STOP = true := by
  rw [c4_stop_bit_last_byte_of_call { I2c.new with tx_fifo_depth := 4 } ⟨0⟩ [0xAA, 0xBB] true 1
    (by decide)]
  decide

/-- C9: every register bitfield type with a documented reserved-bit
mask constructs from a raw `u32` by AND-ing with the type's `MASK`, and
construction from an all-ones raw value yields exactly the documented
mask (`I2cCon` 0xBFF, `I2cTar` 0x13FF, `I2cSar` 0x3FF, `I2cEnable` 0x3,
`I2cEnableStatus` 0x7D, raw/masked/cleared interrupt status 0x3FFF,
`I2cDataCmd` 0xFFF, `I2cTxAbortSource` 0xFEBF). -/
theorem c9_bitflag_masks (v : Nat) :
    (I2cCon.from_u32 v = v &&& 3071 ∧ I2cCon.from_u32 4294967295 = 3071)
    ∧ (I2cTar.from_u32 v = v &&& 5119 ∧ I2cTar.from_u32 4294967295 = 5119)
    ∧ (I2cSar.from_u32 v = v &&& 1023 ∧ I2cSar.from_u32 4294967295 = 1023)
    ∧ (I2cEnable.from_u32 v = v &&& 3 ∧ I2cEnable.from_u32 4294967295 = 3)
    ∧ (I2cEnableStatus.from_u32 v = v &&& 125 ∧ I2cEnableStatus.from_u32 4294967295 = 125)
    ∧ (I2cRawInterruptStatus.from_u32 v = v &&& 16383
        ∧ I2cRawInterruptStatus.from_u32 4294967295 = 16383)
    ∧ (I2cInterruptStatus.from_u32 v = v &&& 16383
        ∧ I2cInterruptStatus.from_u32 4294967295 = 16383)
    ∧ (I2cClearInterrupt.from_u32 v = v &&& 16383
        ∧ I2cClearInterrupt.from_u32 4294967295 = 16383)
    ∧ (I2cDataCmd.from_u32 v = v &&& 4095 ∧ I2cDataCmd.from_u32 4294967295 = 4095)
    ∧ (I2cTxAbortSource.from_u32 v = v &&& 65215
        ∧ I2cTxAbortSource.from_u32 4294967295 = 65215) :=
  ⟨⟨rfl, by decide⟩, ⟨rfl, by decide⟩, ⟨rfl, by decide⟩, ⟨rfl, by decide⟩, ⟨rfl, by decide⟩,
   ⟨rfl, by decide⟩, ⟨rfl, by decide⟩, ⟨rfl, by decide⟩, ⟨rfl, by decide⟩, ⟨rfl, by decide⟩⟩

end Jh71xxHal
